import Mathlib

/-!
Shallow embedding of the email-capture core of the myBCL landing page:
the client-side validator (`FormValidator.validateEmail`, src/js/main.js),
the client submission pipeline (`FormHandler` in src/unnamed/part_001:
`handleSubmit`, `makeApiCall`, `getErrorMessage`), and the backend relay
(src/api/email-capture.js: `getZohoAccessToken`, `subscribeToZohoCampaigns`,
`handler`).  JS strings are modelled as Lean `String` over their character
lists; machine-level details (UTF-16 units vs codepoints, full-Unicode
`toLowerCase`) coincide with the model on the ASCII inputs the code
manipulates.  Network I/O is modelled by explicit oracles describing the
responses of the upstream endpoints, and each embedded operation also
returns the number of outbound fetches it performed.
-/

/-- JS `String.prototype.trim` whitespace class (WhiteSpace and
LineTerminator code points). -/
def isJsWhitespaceChar (c : Char) : Bool :=
  c.toNat = 9 || c.toNat = 10 || c.toNat = 11 || c.toNat = 12 || c.toNat = 13 ||
  c.toNat = 32 || c.toNat = 160 || c.toNat = 0x1680 ||
  (0x2000 ≤ c.toNat && c.toNat ≤ 0x200A) ||
  c.toNat = 0x2028 || c.toNat = 0x2029 || c.toNat = 0x202F ||
  c.toNat = 0x205F || c.toNat = 0x3000 || c.toNat = 0xFEFF

/-- JS `email.trim()`. -/
def jsTrim (s : String) : String :=
  ⟨((s.toList.dropWhile isJsWhitespaceChar).reverse.dropWhile isJsWhitespaceChar).reverse⟩

/-- One character of JS `toLowerCase` (ASCII range, the only range the
validator's patterns inspect). -/
def jsCharLower (c : Char) : Char :=
  if 'A' ≤ c && c ≤ 'Z' then Char.ofNat (c.toNat + 32) else c

/-- JS `s.toLowerCase()`. -/
def jsToLower (s : String) : String :=
  ⟨s.toList.map jsCharLower⟩

/-- `pat` is a prefix of `hay` (character lists). -/
def takeStarts : List Char → List Char → Bool
  | [], _ => true
  | _ :: _, [] => false
  | p :: ps, h :: hs => p = h && takeStarts ps hs

/-- `pat` occurs as a contiguous substring of `hay` (character lists). -/
def subOf (pat : List Char) : List Char → Bool
  | [] => takeStarts pat []
  | h :: hs => takeStarts pat (h :: hs) || subOf pat hs

/-- JS `s.includes(pat)`. -/
def strContains (s pat : String) : Bool :=
  subOf pat.toList s.toList

/-- JS `s.startsWith(pat)` / an anchored `^pat` regex test. -/
def strStarts (s pat : String) : Bool :=
  takeStarts pat.toList s.toList

/-- An anchored `pat$` regex test: `s` ends with `pat`. -/
def strEnds (s pat : String) : Bool :=
  takeStarts pat.toList.reverse s.toList.reverse

/-- JS `String.prototype.split` on a single separator character. -/
def splitOnChar (sep : Char) : List Char → List (List Char)
  | [] => [[]]
  | c :: rest =>
    let r := splitOnChar sep rest
    if c = sep then [] :: r
    else
      match r with
      | [] => [[c]]
      | h :: t => (c :: h) :: t

/-- JS truthiness of an optional string (`undefined` and `""` are falsy). -/
def jsTruthy : Option String → Bool
  | none => false
  | some s => !(s = "")

/-! ## FormValidator (src/js/main.js) -/

/-- `this.errors.REQUIRED`. -/
def REQUIRED : String := "This field is required"

/-- `this.errors.INVALID_EMAIL`. -/
def INVALID_EMAIL : String := "Please enter a valid email address"

/-- `this.errors.TOO_LONG`. -/
def TOO_LONG : String := "Email address is too long (maximum 254 characters)"

/-- `this.errors.DISPOSABLE_EMAIL`. -/
def DISPOSABLE_EMAIL : String := "Please use a permanent email address"

/-- `this.disposableDomains`. -/
def disposableDomains : List String :=
  ["10minutemail.com", "tempmail.org", "guerrillamail.com",
   "mailinator.com", "temp-mail.org", "throwaway.email"]

/-- ASCII alphanumeric, the `[a-zA-Z0-9]` class of `this.emailRegex`. -/
def isAlnumChar (c : Char) : Bool :=
  c.isAlpha || c.isDigit

/-- The local-part character class of `this.emailRegex`: alphanumerics plus
the specials written there (dot, bang, hash, dollar, percent, ampersand,
quote, star, plus, slash, equals, question mark, caret, underscore,
backquote, the three bracket-bar characters, tilde, hyphen), listed here by
character code. -/
def isLocalChar (c : Char) : Bool :=
  isAlnumChar c ||
  [33, 35, 36, 37, 38, 39, 42, 43, 45, 46, 47, 61, 63,
   94, 95, 96, 123, 124, 125, 126].contains c.toNat

/-- One domain label of `this.emailRegex`:
`[a-zA-Z0-9](?:[a-zA-Z0-9-]\x7b0,61\x7d[a-zA-Z0-9])?` — one alphanumeric,
optionally followed by up to 61 alphanumeric-or-hyphen characters ending in
an alphanumeric (so 1 to 63 characters, no leading/trailing hyphen). -/
def labelOk (l : List Char) : Bool :=
  match l with
  | [] => false
  | [c] => isAlnumChar c
  | c :: rest =>
    isAlnumChar c && isAlnumChar rest.getLast! &&
    rest.dropLast.all (fun x => isAlnumChar x || x = '-') &&
    rest.length ≤ 62

/-- `this.emailRegex.test(value)`.  Since neither the local-part class nor
the domain classes admit the at-sign, the anchored regex matches exactly the
strings with a single at-sign, a nonempty all-local-class local part, and a
dot-separated sequence of valid labels as domain. -/
def emailRegexTest (s : String) : Bool :=
  match splitOnChar '@' s.toList with
  | [localPart, domainPart] =>
    !localPart.isEmpty && localPart.all isLocalChar &&
    (splitOnChar '.' domainPart).all labelOk
  | _ => false

/-- Helper for the `/^\d+@/` suspicious pattern: after at least one digit,
the remaining characters continue as digits until an at-sign is found. -/
def afterDigitsAt : List Char → Bool
  | [] => false
  | c :: rest => c = '@' || (c.isDigit && afterDigitsAt rest)

/-- The `/^\d+@/` suspicious pattern: one or more leading digits immediately
followed by an at-sign. -/
def digitsThenAt : List Char → Bool
  | [] => false
  | c :: rest => c.isDigit && afterDigitsAt rest

/-- The single-character-username suspicious pattern (on the lowercased
string): first character a letter, second character an at-sign. -/
def singleLetterAt : List Char → Bool
  | c :: a :: _ => ('a' ≤ c && c ≤ 'z') && a = '@'
  | _ => false

/-- The repeated-characters suspicious pattern: some character occurring at
five or more consecutive positions immediately followed by an at-sign
(a sliding window of five equal characters then an at-sign). -/
def repeatRunThenAt : List Char → Bool
  | c0 :: c1 :: c2 :: c3 :: c4 :: c5 :: rest =>
    (c1 = c0 && c2 = c0 && c3 = c0 && c4 = c0 && c5 = '@') ||
    repeatRunThenAt (c1 :: c2 :: c3 :: c4 :: c5 :: rest)
  | _ => false

/-- `FormValidator.isSuspiciousEmail`: the fixed ordered pattern list.  All
case-insensitive patterns are evaluated on the lowercased string (the caller
passes an already-lowercased value, so this is equivalent). -/
def isSuspiciousEmail (email : String) : Bool :=
  let low := jsToLower email
  strStarts low "test@" || strStarts low "fake@" || strStarts low "spam@" ||
  strStarts low "noreply@" ||
  strEnds low "example.com" || strEnds low "localhost" || strEnds low ".local" ||
  digitsThenAt email.toList || singleLetterAt low.toList ||
  repeatRunThenAt low.toList

/-- The result object built by `FormValidator.validateEmail`. -/
structure ValidationResult where
  isValid : Bool
  error : Option String
  value : String
deriving Repr, DecidableEq

/-- JS `value.split(sep)[1]` for a one-character separator (`undefined`
modelled as `""`; only reached on strings that passed the regex, which have
exactly one at-sign). -/
def domainAfterAt (s : String) : String :=
  match splitOnChar '@' s.toList with
  | _ :: d :: _ => ⟨d⟩
  | _ => ""

/-- The `result.value` computed up front by `validateEmail`:
`email.trim().toLowerCase()`. -/
def normalizeEmail (email : String) : String :=
  jsToLower (jsTrim email)

/-- `FormValidator.validateEmail`: normalize (trim then lowercase), then the
short-circuiting checks in source order — required, length, regex,
disposable domain, suspicious patterns. -/
def validateEmail (email : String) : ValidationResult :=
  if normalizeEmail email = "" then
    ⟨false, some REQUIRED, normalizeEmail email⟩
  else if 254 < (normalizeEmail email).length then
    ⟨false, some TOO_LONG, normalizeEmail email⟩
  else if !emailRegexTest (normalizeEmail email) then
    ⟨false, some INVALID_EMAIL, normalizeEmail email⟩
  else if disposableDomains.contains (domainAfterAt (normalizeEmail email)) then
    ⟨false, some DISPOSABLE_EMAIL, normalizeEmail email⟩
  else if isSuspiciousEmail (normalizeEmail email) then
    ⟨false, some INVALID_EMAIL, normalizeEmail email⟩
  else ⟨true, none, normalizeEmail email⟩

/-! ## FormHandler (src/unnamed/part_001) -/

/-- `FormHandler.getErrorMessage`: maps a raw error-message string to one
fixed user-readable sentence via ordered substring tests, with a generic
fallback sentence. -/
def getErrorMessage (errorMessage : String) : String :=
  if strContains errorMessage "Failed to fetch" ||
     strContains errorMessage "NetworkError" then
    "Please check your internet connection and try again."
  else if strContains errorMessage "timeout" ||
          strContains errorMessage "aborted" then
    "Request timed out. Please try again."
  else if strContains errorMessage "400" then
    "Invalid email address. Please check and try again."
  else if strContains errorMessage "429" then
    "Too many requests. Please wait a moment and try again."
  else if strContains errorMessage "500" || strContains errorMessage "502" ||
          strContains errorMessage "503" then
    "Service temporarily unavailable. Please try again in a few minutes."
  else
    "Something went wrong. Please try again."

/-- True when the error string matches at least one of the specific
substring cases of `getErrorMessage` (so the fallback sentence is used
exactly when this is false). -/
def matchesSpecificPattern (e : String) : Bool :=
  strContains e "Failed to fetch" || strContains e "NetworkError" ||
  strContains e "timeout" || strContains e "aborted" ||
  strContains e "400" || strContains e "429" ||
  strContains e "500" || strContains e "502" || strContains e "503"

/-- Outcome of one `fetch` of the form endpoint inside
`FormHandler.makeApiCall`: a 2xx JSON response, a non-ok HTTP status (the
code throws `API Error: status`), a timeout (the `AbortController` fired, so
`controller.signal.aborted` is true in the catch block), or a network-level
rejection of `fetch` itself (signal not aborted). -/
inductive CallResult where
  | httpOk
  | httpError (status : Nat)
  | timeout
  | networkError
deriving Repr, DecidableEq

/-- `this.apiConfig` of `FormHandler`. -/
structure ApiConfig where
  timeout : Nat
  maxRetries : Nat
  retryDelay : Nat
deriving Repr, DecidableEq

/-- The reference configuration: 10s timeout, `maxRetries = 3`,
`retryDelay = 1000`. -/
def apiConfig : ApiConfig := ⟨10000, 3, 1000⟩

deriving instance DecidableEq for Except

/-- Observable trace of one `makeApiCall` invocation: the final result
(success or the propagated failure), the total number of fetch attempts
performed, and the list of backoff delays awaited between attempts. -/
structure ApiTrace where
  result : Except CallResult Unit
  attempts : Nat
  delays : List Nat
deriving Repr, DecidableEq

/-- `FormHandler.makeApiCall(payload, retryCount)`.  The oracle gives the
outcome of the fetch performed at each retry count.  On failure the source
retries only when `retryCount < this.apiConfig.maxRetries` and the abort
signal did not fire (`!controller.signal.aborted`), awaiting
`this.apiConfig.retryDelay * (retryCount + 1)` first; otherwise the error is
rethrown. -/
def makeApiCall (cfg : ApiConfig) (oracle : Nat → CallResult)
    (retryCount : Nat) : ApiTrace :=
  match oracle retryCount with
  | .httpOk => ⟨.ok (), 1, []⟩
  | f =>
    if hret : retryCount < cfg.maxRetries ∧ ¬(f = CallResult.timeout) then
      let rest := makeApiCall cfg oracle (retryCount + 1)
      ⟨rest.result, rest.attempts + 1,
        cfg.retryDelay * (retryCount + 1) :: rest.delays⟩
    else ⟨.error f, 1, []⟩
termination_by cfg.maxRetries - retryCount
decreasing_by omega

/-- The JS error-message string carried by each failure kind, as produced in
`makeApiCall` and consumed by `getErrorMessage` (an aborted fetch rejects
with an `AbortError` whose message mentions `aborted`; a network-level
failure rejects with `Failed to fetch`). -/
def failureMessage : CallResult → String
  | .httpOk => ""
  | .httpError status => "API Error: " ++ toString status
  | .timeout => "The user aborted a request."
  | .networkError => "Failed to fetch"

/-- The user-visible outcome of one `FormHandler.handleSubmit` call. -/
inductive SubmitOutcome where
  | ignored
  | rejected (err : String)
  | succeeded
  | failed (msg : String)
deriving Repr, DecidableEq

/-- Observable trace of one `handleSubmit` call: its outcome, how many
outbound network requests it performed, and the value of the
`isSubmitting` flag after the call completes. -/
structure SubmitTrace where
  outcome : SubmitOutcome
  networkRequests : Nat
  isSubmittingAfter : Bool
deriving Repr, DecidableEq

/-- `FormHandler.handleSubmit` (production path): if `this.isSubmitting` is
set the call returns immediately; otherwise the form data is validated
(`validateFormData` delegates to `validateEmail`), invalid input shows the
validation error, and valid input sets the flag, runs `makeApiCall` from
retry count 0, maps a thrown error through `getErrorMessage`, and finally
clears the flag. -/
def handleSubmit (isSubmitting : Bool) (email : String)
    (net : Nat → CallResult) : SubmitTrace :=
  if isSubmitting then ⟨.ignored, 0, isSubmitting⟩
  else
    let v := validateEmail email
    if v.isValid = false then ⟨.rejected (v.error.getD ""), 0, false⟩
    else
      let t := makeApiCall apiConfig net 0
      match t.result with
      | .ok _ => ⟨.succeeded, t.attempts, false⟩
      | .error f => ⟨.failed (getErrorMessage (failureMessage f)), t.attempts, false⟩

/-! ## Backend relay (src/api/email-capture.js) -/

/-- The environment-supplied Zoho configuration (`process.env` reads);
`none` models an unset variable, and the source tests plain JS truthiness,
so an empty string behaves like an absent value. -/
structure ZohoConfig where
  clientId : Option String
  clientSecret : Option String
  refreshToken : Option String
  listKey : Option String
deriving Repr, DecidableEq

/-- Upstream response of the OAuth token endpoint as observed by the code:
HTTP `ok` flag, status, whether the body parsed as JSON, the JSON `error`
field, and the JSON `access_token` field. -/
structure TokenResponse where
  ok : Bool
  status : Nat
  bodyIsJson : Bool
  error : Option String
  accessToken : String
deriving Repr, DecidableEq

/-- Upstream response of the bulk-subscribe endpoint as observed by the
code: HTTP `ok` flag, status, whether the body parsed as JSON, and the
provider `code` field of the JSON body. -/
structure BulkResponse where
  ok : Bool
  status : Nat
  bodyIsJson : Bool
  code : Option String
deriving Repr, DecidableEq

/-- Behaviour of the two outbound endpoints for one request; `none` models a
network-level rejection of that `fetch`. -/
structure Upstream where
  tokenCall : Option TokenResponse
  bulkCall : Option BulkResponse
deriving Repr, DecidableEq

/-- `getZohoAccessToken`: fails before any fetch when one of the three
credentials is missing; otherwise performs one fetch, then fails on a JSON
parse error, a non-ok response, or a truthy `error` field.  Returns the
result together with the number of outbound fetches performed. -/
def getZohoAccessToken (cfg : ZohoConfig) (up : Upstream) :
    Except String String × Nat :=
  if !jsTruthy cfg.clientId || !jsTruthy cfg.clientSecret ||
     !jsTruthy cfg.refreshToken then
    (Except.error "Zoho OAuth credentials not configured", 0)
  else
    match up.tokenCall with
    | none => (Except.error "Failed to fetch", 1)
    | some r =>
      if !r.bodyIsJson then
        (Except.error "Unexpected token in JSON", 1)
      else if !r.ok || jsTruthy r.error then
        (Except.error "Failed to refresh token", 1)
      else (Except.ok r.accessToken, 1)

/-- `subscribeToZohoCampaigns`: fails before any fetch when the list key is
missing; otherwise acquires a token (propagating its failure), performs the
bulk-subscribe fetch, and fails on a non-JSON body, a non-ok status, or a
truthy provider `code` different from `"0"`.  Returns the result together
with the total number of outbound fetches performed. -/
def subscribeToZohoCampaigns (cfg : ZohoConfig) (up : Upstream) :
    Except String Unit × Nat :=
  if !jsTruthy cfg.listKey then
    (Except.error "Zoho Campaigns list key not configured", 0)
  else
    match getZohoAccessToken cfg up with
    | (Except.error e, n) => (Except.error e, n)
    | (Except.ok _, n) =>
      match up.bulkCall with
      | none => (Except.error "Failed to fetch", n + 1)
      | some r =>
        if !r.bodyIsJson then
          (Except.error "Invalid response from Zoho API", n + 1)
        else if !r.ok then
          (Except.error ("Zoho API error: " ++ toString r.status), n + 1)
        else if jsTruthy r.code && !(r.code.getD "" = "0") then
          (Except.error "Zoho API error: nonzero code", n + 1)
        else (Except.ok (), n + 1)

/-- Inbound request to the serverless `handler`: HTTP method and the
`email`/`source` fields of the JSON body. -/
structure CaptureRequest where
  method : String
  email : Option String
  source : Option String
deriving Repr, DecidableEq

/-- Response produced by `handler`: status code, the `message` field of the
JSON body (`none` for the body-less `OPTIONS` reply), and the echoed
`email`/`source` fields. -/
structure CaptureResponse where
  status : Nat
  message : Option String
  email : Option String
  source : Option String
deriving Repr, DecidableEq

/-- The serverless `handler` of src/api/email-capture.js, paired with the
number of outbound fetches performed: `OPTIONS` short-circuits to 200, any
method other than `POST` to 405, a falsy or at-sign-free email to 400;
otherwise the subscribe call runs and its failure is absorbed into a 200
soft acknowledgment (the outer 500 catch is unreachable here because the
embedded body access is total). -/
def handler (req : CaptureRequest) (cfg : ZohoConfig) (up : Upstream) :
    CaptureResponse × Nat :=
  if req.method = "OPTIONS" then (⟨200, none, none, none⟩, 0)
  else if !(req.method = "POST") then
    (⟨405, some "Method not allowed", none, none⟩, 0)
  else if !jsTruthy req.email ||
          !strContains (req.email.getD "") "@" then
    (⟨400, some "Please provide a valid email address", none, none⟩, 0)
  else
    let email := req.email.getD ""
    let emailSource :=
      if jsTruthy req.source then req.source.getD ""
      else "career-launch-landing"
    match subscribeToZohoCampaigns cfg up with
    | (Except.ok _, n) =>
      (⟨200, some "Thank you! We\x27ll notify you as soon as the agenda is available.",
        some email, some emailSource⟩, n)
    | (Except.error _, n) =>
      (⟨200, some "Thank you for your interest! We\x27ll be in touch soon.",
        some email, some emailSource⟩, n)

/-! ## Claim theorems -/

/-- Claim C1: if the upstream bulk-subscribe call fails for any reason, the
inbound handler still answers HTTP 200 with the fixed non-empty soft
acknowledgment message, so the caller sees `ok` with a generic success
text rather than a failure. -/
theorem softFailureGuarantee (cfg : ZohoConfig) (up : Upstream)
    (email : String) (source : Option String) (e : String)
    (hmail : jsTruthy (some email) = true)
    (hat : strContains email "@" = true)
    (hfail : (subscribeToZohoCampaigns cfg up).1 = Except.error e) :
    (handler ⟨"POST", some email, source⟩ cfg up).1.status = 200 ∧
    (handler ⟨"POST", some email, source⟩ cfg up).1.message =
      some "Thank you for your interest! We\x27ll be in touch soon." ∧
    ¬("Thank you for your interest! We\x27ll be in touch soon." = "") := by
  rcases h2 : subscribeToZohoCampaigns cfg up with ⟨r, n⟩
  rw [h2] at hfail
  simp at hfail
  subst hfail
  refine ⟨?_, ?_, by decide⟩ <;> simp [handler, hmail, hat, h2]

/-- Witness for C1 at a concrete request whose bulk-subscribe call answers
an upstream HTTP 500. -/
theorem softFailureGuaranteeWitness :
    (handler ⟨"POST", some "a@b.com", none⟩
      ⟨some "i", some "s", some "t", some "k"⟩
      ⟨some ⟨true, 200, true, none, "tok"⟩, some ⟨false, 500, true, none⟩⟩).1.status = 200 ∧
    (handler ⟨"POST", some "a@b.com", none⟩
      ⟨some "i", some "s", some "t", some "k"⟩
      ⟨some ⟨true, 200, true, none, "tok"⟩, some ⟨false, 500, true, none⟩⟩).1.message =
      some "Thank you for your interest! We\x27ll be in touch soon." ∧
    ¬("Thank you for your interest! We\x27ll be in touch soon." = "") :=
  softFailureGuarantee ⟨some "i", some "s", some "t", some "k"⟩
    ⟨some ⟨true, 200, true, none, "tok"⟩, some ⟨false, 500, true, none⟩⟩
    "a@b.com" none "Zoho API error: 500" (by decide) (by decide) (by decide)

/-- Claim C2 counterexample: under persistent timeouts `makeApiCall`
performs exactly one attempt, not `maxRetries + 1 = 4`, because the retry
guard requires the abort signal (which a timeout fires) to be clear. -/
theorem retryBoundTimeoutCounterexample :
    (makeApiCall apiConfig (fun _ => CallResult.timeout) 0).attempts = 1 ∧
    ¬((makeApiCall apiConfig (fun _ => CallResult.timeout) 0).attempts =
        apiConfig.maxRetries + 1) := by
  have h : makeApiCall apiConfig (fun _ => CallResult.timeout) 0 =
      ⟨.error .timeout, 1, []⟩ := by
    simp [makeApiCall, apiConfig]
  rw [h]
  exact ⟨rfl, by decide⟩

/-- Claim C2 as amended: a timed-out attempt is never retried (the abort
signal suppresses the retry guard), so persistent timeouts yield exactly one
attempt and a terminal failure outcome; persistent non-timeout network
failures are the ones retried to exactly `maxRetries + 1 = 4` total
attempts, with linearly increasing backoff `retryDelay * attemptNumber`
(1000, 2000, 3000) between attempts, before the terminal failure outcome. -/
theorem retryBoundAmended (oracle1 oracle2 : Nat → CallResult)
    (h1 : ∀ n, oracle1 n = CallResult.timeout)
    (h2 : ∀ n, oracle2 n = CallResult.networkError) :
    makeApiCall apiConfig oracle1 0 = ⟨.error .timeout, 1, []⟩ ∧
    makeApiCall apiConfig oracle2 0 =
      ⟨.error .networkError, 4, [1000, 2000, 3000]⟩ ∧
    (handleSubmit false "jane.doe@schoolboard.org" oracle1).outcome =
      .failed "Request timed out. Please try again." ∧
    (handleSubmit false "jane.doe@schoolboard.org" oracle2).outcome =
      .failed "Please check your internet connection and try again." ∧
    (handleSubmit false "jane.doe@schoolboard.org" oracle2).networkRequests = 4 := by
  have hm1 : makeApiCall apiConfig oracle1 0 = ⟨.error .timeout, 1, []⟩ := by
    simp [makeApiCall, apiConfig, h1]
  have hm2 : makeApiCall apiConfig oracle2 0 =
      ⟨.error .networkError, 4, [1000, 2000, 3000]⟩ := by
    simp [makeApiCall, apiConfig, h2]
  have hv : (validateEmail "jane.doe@schoolboard.org").isValid = true := by decide
  refine ⟨hm1, hm2, ?_, ?_, ?_⟩ <;> simp [handleSubmit, hv, hm1, hm2] <;> decide

/-- Witness for the amended C2 at the constant timeout and constant
network-failure oracles. -/
theorem retryBoundAmendedWitness :
    makeApiCall apiConfig (fun _ => CallResult.timeout) 0 =
      ⟨.error .timeout, 1, []⟩ ∧
    makeApiCall apiConfig (fun _ => CallResult.networkError) 0 =
      ⟨.error .networkError, 4, [1000, 2000, 3000]⟩ ∧
    (handleSubmit false "jane.doe@schoolboard.org" (fun _ => CallResult.timeout)).outcome =
      .failed "Request timed out. Please try again." ∧
    (handleSubmit false "jane.doe@schoolboard.org" (fun _ => CallResult.networkError)).outcome =
      .failed "Please check your internet connection and try again." ∧
    (handleSubmit false "jane.doe@schoolboard.org" (fun _ => CallResult.networkError)).networkRequests = 4 :=
  retryBoundAmended (fun _ => CallResult.timeout) (fun _ => CallResult.networkError)
    (fun _ => rfl) (fun _ => rfl)

/-- Claim C3 counterexample: an outbound call failing with HTTP 400 is
retried — with every attempt answering 400, `makeApiCall` performs 4
attempts, not 1, because the retry guard only excludes aborted (timed-out)
calls, not 4xx application errors. -/
theorem no4xxRetryCounterexample :
    (makeApiCall apiConfig (fun _ => CallResult.httpError 400) 0).attempts = 4 ∧
    ¬((makeApiCall apiConfig (fun _ => CallResult.httpError 400) 0).attempts = 1) := by
  have h : makeApiCall apiConfig (fun _ => CallResult.httpError 400) 0 =
      ⟨.error (.httpError 400), 4, [1000, 2000, 3000]⟩ := by
    simp [makeApiCall, apiConfig]
  rw [h]
  exact ⟨rfl, by decide⟩

/-- Claim C3 as amended: a 4xx application error is retried like any other
non-timeout failure — under persistent 4xx responses `makeApiCall` performs
`maxRetries + 1 = 4` total attempts with the usual backoff and only then
propagates the failure. -/
theorem retryOn4xxAmended (oracle : Nat → CallResult)
    (h : ∀ n, oracle n = CallResult.httpError 400) :
    makeApiCall apiConfig oracle 0 =
      ⟨.error (.httpError 400), 4, [1000, 2000, 3000]⟩ := by
  simp [makeApiCall, apiConfig, h]

/-- Witness for the amended C3 at the constant 400-response oracle. -/
theorem retryOn4xxAmendedWitness :
    makeApiCall apiConfig (fun _ => CallResult.httpError 400) 0 =
      ⟨.error (.httpError 400), 4, [1000, 2000, 3000]⟩ :=
  retryOn4xxAmended (fun _ => CallResult.httpError 400) (fun _ => rfl)

/-- Claim C4: when any of the three OAuth credentials is absent (or empty,
which JS truthiness treats identically), the pipeline fails for that request
before performing any outbound fetch, there is no retry, and the handler
still answers HTTP 200 with the same generic soft acknowledgment used for
upstream failures — never a distinguishable 500. -/
theorem missingCredentialsSoftSuccess (cfg : ZohoConfig) (up : Upstream)
    (email : String) (source : Option String)
    (hmiss : jsTruthy cfg.clientId = false ∨ jsTruthy cfg.clientSecret = false ∨
             jsTruthy cfg.refreshToken = false)
    (hmail : jsTruthy (some email) = true)
    (hat : strContains email "@" = true) :
    (handler ⟨"POST", some email, source⟩ cfg up).1.status = 200 ∧
    (handler ⟨"POST", some email, source⟩ cfg up).1.message =
      some "Thank you for your interest! We\x27ll be in touch soon." ∧
    (handler ⟨"POST", some email, source⟩ cfg up).2 = 0 := by
  have hsub : ∃ e, subscribeToZohoCampaigns cfg up = (Except.error e, 0) := by
    by_cases hl : jsTruthy cfg.listKey = true
    · have htok : getZohoAccessToken cfg up =
          (Except.error "Zoho OAuth credentials not configured", 0) := by
        unfold getZohoAccessToken
        rcases hmiss with h | h | h <;> simp [h]
      exact ⟨"Zoho OAuth credentials not configured",
        by simp [subscribeToZohoCampaigns, hl, htok]⟩
    · simp only [Bool.not_eq_true] at hl
      exact ⟨"Zoho Campaigns list key not configured",
        by simp [subscribeToZohoCampaigns, hl]⟩
  obtain ⟨e, he⟩ := hsub
  simp [handler, hmail, hat, he]

/-- Witness for C4 at a concrete request with the client id unset. -/
theorem missingCredentialsSoftSuccessWitness :
    (handler ⟨"POST", some "a@b.com", none⟩ ⟨none, some "s", some "t", some "k"⟩
      ⟨some ⟨true, 200, true, none, "tok"⟩, some ⟨true, 200, true, some "0"⟩⟩).1.status = 200 ∧
    (handler ⟨"POST", some "a@b.com", none⟩ ⟨none, some "s", some "t", some "k"⟩
      ⟨some ⟨true, 200, true, none, "tok"⟩, some ⟨true, 200, true, some "0"⟩⟩).1.message =
      some "Thank you for your interest! We\x27ll be in touch soon." ∧
    (handler ⟨"POST", some "a@b.com", none⟩ ⟨none, some "s", some "t", some "k"⟩
      ⟨some ⟨true, 200, true, none, "tok"⟩, some ⟨true, 200, true, some "0"⟩⟩).2 = 0 :=
  missingCredentialsSoftSuccess ⟨none, some "s", some "t", some "k"⟩
    ⟨some ⟨true, 200, true, none, "tok"⟩, some ⟨true, 200, true, some "0"⟩⟩
    "a@b.com" none (Or.inl (by decide)) (by decide) (by decide)

set_option maxRecDepth 100000 in
/-- Claim C5 counterexample: a string of 255 spaces has raw length greater
than 254, yet `validateEmail` reports `REQUIRED` (the empty-after-trim
check runs first, on the trimmed value), not `TOO_LONG`. -/
theorem tooLongRawLengthCounterexample :
    254 < (String.mk (List.replicate 255 ' ')).length ∧
    (validateEmail (String.mk (List.replicate 255 ' '))).error = some REQUIRED ∧
    ¬((validateEmail (String.mk (List.replicate 255 ' '))).error = some TOO_LONG) := by
  decide

/-- Claim C5 as amended: for every input string whose trimmed, lowercased
value has length greater than 254 (the length the code actually tests),
`validateEmail` returns the `TOO_LONG` error. -/
theorem tooLongTrimmedLength (s : String)
    (h : 254 < (normalizeEmail s).length) :
    (validateEmail s).error = some TOO_LONG := by
  have hne : ¬(normalizeEmail s = "") := by
    intro he
    rw [he] at h
    simp at h
  unfold validateEmail
  simp only [if_neg hne, if_pos h]

set_option maxRecDepth 100000 in
/-- Witness for the amended C5 at a 255-character string of letters. -/
theorem tooLongTrimmedLengthWitness :
    254 < (normalizeEmail (String.mk (List.replicate 255 'a'))).length ∧
    (validateEmail (String.mk (List.replicate 255 'a'))).error = some TOO_LONG :=
  ⟨by decide, tooLongTrimmedLength (String.mk (List.replicate 255 'a')) (by decide)⟩

/-- Claim C6: `validateEmail "user@example.com"` is rejected with the
`INVALID_EMAIL` error (the example-domain suspicious heuristic reports the
same error text as an invalid format), while
`validateEmail "jane.doe@schoolboard.org"` is accepted as valid. -/
theorem exampleDomainRejectedSchoolboardAccepted :
    validateEmail "user@example.com" =
      ⟨false, some INVALID_EMAIL, "user@example.com"⟩ ∧
    validateEmail "jane.doe@schoolboard.org" =
      ⟨true, none, "jane.doe@schoolboard.org"⟩ := by
  decide

/-- Claim C7: for every input string, the result of `validateEmail`
satisfies `isValid = true` iff its `error` field is `none`, and its `value`
field is always the lowercased, whitespace-trimmed input, whether or not
validation succeeded. -/
theorem validationResultInvariant (s : String) :
    ((validateEmail s).isValid = true ↔ (validateEmail s).error = none) ∧
    (validateEmail s).value = normalizeEmail s := by
  unfold validateEmail
  repeat' split
  all_goals simp

/-- Claim C8: `getErrorMessage` is a total pure function: on every error
string it produces exactly one non-empty user sentence, and it falls back to
the generic unknown-error sentence exactly when no specific substring case
matches. -/
theorem errorMessageTotalNonEmpty (e : String) :
    ¬(getErrorMessage e = "") ∧
    (matchesSpecificPattern e = false →
      getErrorMessage e = "Something went wrong. Please try again.") := by
  constructor
  · unfold getErrorMessage
    repeat' split
    all_goals decide
  · intro h
    simp only [matchesSpecificPattern, Bool.or_eq_false_iff] at h
    obtain ⟨⟨⟨⟨⟨⟨⟨⟨h1, h2⟩, h3⟩, h4⟩, h5⟩, h6⟩, h7⟩, h8⟩, h9⟩ := h
    unfold getErrorMessage
    simp only [h1, h2, h3, h4, h5, h6, h7, h8, h9]
    simp

/-- Witness for C8 at a concrete error string matching no specific case. -/
theorem errorMessageTotalNonEmptyWitness :
    ¬(getErrorMessage "mystery failure" = "") ∧
    getErrorMessage "mystery failure" = "Something went wrong. Please try again." :=
  ⟨(errorMessageTotalNonEmpty "mystery failure").1,
    (errorMessageTotalNonEmpty "mystery failure").2 (by decide)⟩

/-- Claim C9: while a submission is in flight (`isSubmitting` is set), a
second `handleSubmit` call is a silent no-op — the outcome is `ignored`
(neither queued nor an error), no outbound network request is made, and the
flag is left untouched — for every input and every network behaviour. -/
theorem singleFlightNoSecondRequest (email : String) (net : Nat → CallResult) :
    handleSubmit true email net =
      ⟨SubmitOutcome.ignored, 0, true⟩ := rfl

/-- Claim C10: a request to the email-capture endpoint whose method is
neither `POST` nor `OPTIONS` is answered with status 405 and a JSON body
carrying a `message` field, with no outbound network call (and no input
validation, since the whole response is fixed). -/
theorem methodNotAllowed405 (req : CaptureRequest) (cfg : ZohoConfig)
    (up : Upstream)
    (h1 : ¬(req.method = "OPTIONS")) (h2 : ¬(req.method = "POST")) :
    handler req cfg up =
      (⟨405, some "Method not allowed", none, none⟩, 0) := by
  simp [handler, h1, h2]

/-- Witness for C10 at a concrete `GET` request. -/
theorem methodNotAllowed405Witness :
    handler ⟨"GET", some "a@b.com", none⟩ ⟨none, none, none, none⟩ ⟨none, none⟩ =
      (⟨405, some "Method not allowed", none, none⟩, 0) :=
  methodNotAllowed405 ⟨"GET", some "a@b.com", none⟩ ⟨none, none, none, none⟩
    ⟨none, none⟩ (by decide) (by decide)
